import Mathlib

/-!
Verification development for a pandapower MCP tool server
(`src/backend/src/mcp/panda_mcp.py`) and its chat orchestration loop
(`src/backend/src/agent/graph.py`).

The external collaborators (the pandapower deserializers `pp.from_json` /
`pp.from_pickle`, the iterative solver `pp.runpp`, the language model and
the tool transport) are modelled as oracle parameters; the code of the
repository itself is embedded as pure Lean functions over an explicit
session state, and every theorem quantifies over the oracles.
-/

namespace PandaMCP

/-- One row of an element table (a pandas DataFrame row): its index label
and its `in_service` column, the only column the code touches. -/
structure Row where
  idx : Nat
  in_service : Bool
deriving DecidableEq

/-- One row of `net.res_bus`: index label and voltage magnitude `vm_pu`. -/
structure ResBusRow where
  idx : Nat
  vm_pu : Rat
deriving DecidableEq

/-- One row of `net.res_line`: index label and `loading_percent`. -/
structure ResLineRow where
  idx : Nat
  loading_percent : Rat
deriving DecidableEq

/-- A pandapower network (`pp.pandapowerNet`), restricted to the tables and
fields the server reads: element tables `bus`, `line`, `trafo`, `gen`,
`load`, `switch`, the result tables `res_bus`, `res_line`, `res_trafo`
and the `converged` flag set by the solver. -/
structure Net where
  bus : List Nat
  line : List Row
  trafo : List Row
  gen : List Nat
  load : List Nat
  switch : List Nat
  res_bus : List ResBusRow
  res_line : List ResLineRow
  res_trafo : List Nat
  converged : Bool
deriving DecidableEq

/-- A Python exception raised by an external pandapower call, tagged by
the exception classes the server's `except` clauses distinguish
(`FileNotFoundError`, `ValueError`, `RuntimeError`, any other
`Exception`). -/
inductive PyErr
  | fileNotFound (msg : String)
  | valueError (msg : String)
  | runtimeError (msg : String)
  | other (msg : String)
deriving DecidableEq

/-- The `str(e)` text of an exception. -/
def PyErr.text : PyErr → String
  | .fileNotFound m => m
  | .valueError m => m
  | .runtimeError m => m
  | .other m => m

/-- The process-wide session state: the module-level `_current_net`
global, `None` when no network is loaded. -/
structure Session where
  _current_net : Option Net
deriving DecidableEq

/-- The deserialization oracle: `pp.from_json` and `pp.from_pickle`,
each either returning a network or raising. -/
structure FS where
  from_json : String → Except PyErr Net
  from_pickle : String → Except PyErr Net

/-- The message of the `RuntimeError` raised by `_get_network` when
`_current_net is None`. -/
def noNetworkMsg : String :=
  "No pandapower network is currently loaded. Please create or load a network first."

/-- The `network_info` dict returned by the load tools: the lengths of
the `bus`, `line` and `trafo` tables. -/
structure NetworkInfo where
  buses : Nat
  lines : Nat
  trafos : Nat
deriving DecidableEq

/-- Builds the `network_info` dict from a network. -/
def networkInfoOf (n : Net) : NetworkInfo :=
  { buses := n.bus.length, lines := n.line.length, trafos := n.trafo.length }

/-- The result dict of `load_network` / `create_empty_network`:
either `{"status": "success", "message", "network_info"}` or
`{"status": "error", "message"}`. -/
inductive LoadResult
  | success (message : String) (network_info : NetworkInfo)
  | error (message : String)
deriving DecidableEq

/-- The `status` field of a `LoadResult`. -/
def LoadResult.status : LoadResult → String
  | .success _ _ => "success"
  | .error _ => "error"

/-- Python's `str.endswith`, as a suffix test on the character
sequences of the two strings. -/
def pyEndsWith (s suffix : String) : Bool :=
  suffix.data.isSuffixOf s.data

/-- The load step shared verbatim by `load_network` and
`load_and_run_power_flow`: dispatch on the file extension
(`str.endswith`), deserialize via the matching oracle; the `else` branch
raises `ValueError("Unsupported file format. Use .json or .p files.")`
before any file is read. -/
def loadStep (fs : FS) (file_path : String) : Except PyErr Net :=
  if pyEndsWith file_path ".json" then fs.from_json file_path
  else if pyEndsWith file_path ".p" then fs.from_pickle file_path
  else .error (.valueError "Unsupported file format. Use .json or .p files.")

/-- Embeds `load_network(file_path)`: run the load step and map each
raised exception through the function's `except` clauses
(`FileNotFoundError`, `ValueError` — which returns `str(ve)` verbatim,
covering the unsupported-extension raise — then `except Exception`).
The global `_current_net` is assigned only when deserialization
returns. -/
def load_network (fs : FS) (st : Session) (file_path : String) :
    LoadResult × Session :=
  match loadStep fs file_path with
  | .ok n =>
      (.success ("Network loaded successfully from " ++ file_path)
        (networkInfoOf n), ⟨some n⟩)
  | .error (.fileNotFound _) =>
      (.error ("File not found: " ++ file_path), st)
  | .error (.valueError m) => (.error m, st)
  | .error (.runtimeError m) =>
      (.error ("Failed to load network: " ++ m), st)
  | .error (.other m) =>
      (.error ("Failed to load network: " ++ m), st)

/-- The keyword arguments of `run_power_flow` forwarded to `pp.runpp`. -/
structure PFParams where
  algorithm : String
  calculate_voltage_angles : Bool
  max_iteration : Nat
  tolerance_mva : Rat
deriving DecidableEq

/-- The `results` dict extracted after a solve: the result tables
(`to_dict()` of `res_bus`, `res_line`, `res_trafo`) and the `converged`
flag. -/
structure PFResults where
  bus_results : List ResBusRow
  line_results : List ResLineRow
  trafo_results : List Nat
  converged : Bool
deriving DecidableEq

/-- Extracts the `results` dict from a solved network. -/
def pfResultsOf (n : Net) : PFResults :=
  { bus_results := n.res_bus, line_results := n.res_line,
    trafo_results := n.res_trafo, converged := n.converged }

/-- The result dict of `run_power_flow`. -/
inductive PFResult
  | success (message : String) (results : PFResults)
  | error (message : String)
deriving DecidableEq

/-- The `status` field of a `PFResult`. -/
def PFResult.status : PFResult → String
  | .success _ _ => "success"
  | .error _ => "error"

/-- Embeds `run_power_flow(...)`. `_get_network` raises `RuntimeError`
when nothing is loaded, caught by `except RuntimeError` returning its
message. Otherwise `pp.runpp` (the oracle) either returns the solved
network — `pp.runpp` mutates `net`, i.e. the session's network, in place,
so the session now holds the solved network — and the tool returns a
success dict whose message depends on `net.converged`, or raises: a
`RuntimeError` is caught by the first clause (message `str(re)`), any
other exception by `except Exception` with the
`"Power flow calculation failed: "` text. -/
def run_power_flow (runpp : Net → PFParams → Except PyErr Net)
    (st : Session) (params : PFParams) : PFResult × Session :=
  match st._current_net with
  | none => (.error noNetworkMsg, st)
  | some net =>
    match runpp net params with
    | .ok solved =>
        (.success
          (if solved.converged then
            "Power flow calculation completed successfully"
          else "Power flow did not converge")
          (pfResultsOf solved), ⟨some solved⟩)
    | .error (.runtimeError m) => (.error m, st)
    | .error e =>
        (.error ("Power flow calculation failed: " ++ e.text), st)

/-- The element-type names iterated by the contingency sweep; the
default set is `['line', 'trafo']`. -/
inductive ElementType
  | line
  | trafo
deriving DecidableEq

/-- The Python string naming an element type. -/
def ElementType.str : ElementType → String
  | .line => "line"
  | .trafo => "trafo"

/-- Table lookup `net[element_type]`. -/
def Net.table (n : Net) : ElementType → List Row
  | .line => n.line
  | .trafo => n.trafo

/-- Embeds `contingency_net[element_type].at[idx, 'in_service'] = False`
applied to a fresh deep copy of the original network. -/
def Net.setOutOfService (n : Net) (et : ElementType) (idx : Nat) : Net :=
  match et with
  | .line =>
      { n with line := n.line.map (fun r =>
          if r.idx = idx then { r with in_service := false } else r) }
  | .trafo =>
      { n with trafo := n.trafo.map (fun r =>
          if r.idx = idx then { r with in_service := false } else r) }

/-- The `violations` dict of one contingency outcome: bus indices whose
`vm_pu` falls outside `[0.95, 1.05]` and line indices whose
`loading_percent` exceeds `100`. -/
structure Violations where
  voltage_violations : List Nat
  loading_violations : List Nat
deriving DecidableEq

/-- Computes the `violations` dict from a solved contingency network. -/
def violationsOf (n : Net) : Violations :=
  { voltage_violations :=
      ((n.res_bus.filter (fun r =>
          decide (r.vm_pu < 0.95) || decide (r.vm_pu > 1.05))).map
        (fun r => r.idx)),
    loading_violations :=
      ((n.res_line.filter (fun r =>
          decide (r.loading_percent > 100))).map (fun r => r.idx)) }

/-- One entry appended to `results` during the sweep: the per-element
dict `{'contingency', 'converged', 'violations'}` on a successful
re-solve, `{'contingency', 'converged': False, 'error'}` when the
re-solve raised. -/
structure COutcome where
  contingency : String
  converged : Bool
  violations : Option Violations
  error : Option String
deriving DecidableEq

/-- The inner loop body of `run_contingency_analysis`: deep-copy the
original network, take one element out of service, re-solve inside the
per-element `try`, and append either the violations entry or, when the
solver raised, the error entry (with `converged` hardcoded to `False`). -/
def contingencyStep (runpp : Net → Except PyErr Net) (orig_net : Net)
    (element_type : ElementType) (acc : List COutcome) (r : Row) :
    List COutcome :=
  let contingency_net := orig_net.setOutOfService element_type r.idx
  let tag := element_type.str ++ "_" ++ toString r.idx
  match runpp contingency_net with
  | .ok solved =>
      acc ++ [{ contingency := tag, converged := solved.converged,
                violations := some (violationsOf solved), error := none }]
  | .error e =>
      acc ++ [{ contingency := tag, converged := false,
                violations := none, error := some e.text }]

/-- The nested loops of `run_contingency_analysis`: for each element
type, for each index of the network's table of that type, run one
contingency. The source duplicates the session network (`deepcopy`)
before each modification, so both the iterated network and the modified
base are the original value `net`. -/
def contingencySweep (runpp : Net → Except PyErr Net) (net : Net)
    (elems : List ElementType) : List COutcome :=
  elems.foldl (fun acc element_type =>
    (net.table element_type).foldl (contingencyStep runpp net element_type)
      acc) []

/-- The result dict of `run_contingency_analysis`. -/
inductive CAResult
  | success (message : String) (results : List COutcome)
  | error (message : String)
deriving DecidableEq

/-- The `status` field of a `CAResult`. -/
def CAResult.status : CAResult → String
  | .success _ _ => "success"
  | .error _ => "error"

/-- Embeds `run_contingency_analysis(contingency_type, elements)`. The
`contingency_type` argument is accepted but never read by the body.
`elements` defaults to `['line', 'trafo']` when `None`. The sweep works
entirely on deep copies, so the session state is returned unchanged.
The sweep calls `pp.runpp(contingency_net)` with the library defaults,
modelled by the parameterless oracle `runpp`. -/
def run_contingency_analysis (runpp : Net → Except PyErr Net)
    (st : Session) (contingency_type : String)
    (elements : Option (List ElementType)) : CAResult × Session :=
  match st._current_net with
  | none => (.error noNetworkMsg, st)
  | some net =>
    let elems := elements.getD [.line, .trafo]
    (.success "Contingency analysis completed"
      (contingencySweep runpp net elems), st)

/-- The `info` dict of `get_network_info`: table lengths and the raw
table dumps. -/
structure NetInfoFull where
  buses : Nat
  lines : Nat
  trafos : Nat
  generators : Nat
  loads : Nat
  switches : Nat
  bus_data : List Nat
  line_data : List Row
  trafo_data : List Row
deriving DecidableEq

/-- The result dict of `get_network_info`. -/
inductive InfoResult
  | success (message : String) (info : NetInfoFull)
  | error (message : String)
deriving DecidableEq

/-- The `status` field of an `InfoResult`. -/
def InfoResult.status : InfoResult → String
  | .success _ _ => "success"
  | .error _ => "error"

/-- Embeds `get_network_info()`: the `RuntimeError` from `_get_network`
becomes an error result; otherwise the info dict is read off the
network without mutating it. -/
def get_network_info (st : Session) : InfoResult × Session :=
  match st._current_net with
  | none => (.error noNetworkMsg, st)
  | some net =>
    (.success "Network information retrieved successfully"
      { buses := net.bus.length, lines := net.line.length,
        trafos := net.trafo.length, generators := net.gen.length,
        loads := net.load.length, switches := net.switch.length,
        bus_data := net.bus, line_data := net.line,
        trafo_data := net.trafo }, st)

/-- The result dict of `load_and_run_power_flow`. -/
inductive LRResult
  | success (message : String) (network_info : NetworkInfo)
    (power_flow_results : PFResults)
  | error (message : String)
deriving DecidableEq

/-- The `status` field of an `LRResult`. -/
def LRResult.status : LRResult → String
  | .success _ _ _ => "success"
  | .error _ => "error"

/-- Embeds `load_and_run_power_flow(file_path, ...)`: load exactly as
`load_network` does (assigning `_current_net` on success), build the
`network_info` counts, then call `pp.runpp` on the freshly loaded
network. Every exception from either step flows through the single
`try`: `FileNotFoundError` and `ValueError` keep the messages of
`load_network`; any other exception yields the combined
`"Failed to load network and run power flow: "` message. -/
def load_and_run_power_flow (fs : FS)
    (runpp : Net → PFParams → Except PyErr Net) (st : Session)
    (file_path : String) (params : PFParams) : LRResult × Session :=
  match loadStep fs file_path with
  | .error (.fileNotFound _) =>
      (.error ("File not found: " ++ file_path), st)
  | .error (.valueError m) => (.error m, st)
  | .error (.runtimeError m) =>
      (.error ("Failed to load network and run power flow: " ++ m), st)
  | .error (.other m) =>
      (.error ("Failed to load network and run power flow: " ++ m), st)
  | .ok n =>
    let network_info := networkInfoOf n
    match runpp n params with
    | .ok solved =>
        (.success
          (if solved.converged then
            "Network loaded from " ++ file_path ++
              " and power flow completed successfully"
          else
            "Network loaded from " ++ file_path ++
              " but power flow did not converge")
          network_info (pfResultsOf solved), ⟨some solved⟩)
    | .error (.fileNotFound _) =>
        (.error ("File not found: " ++ file_path), ⟨some n⟩)
    | .error (.valueError m) => (.error m, ⟨some n⟩)
    | .error (.runtimeError m) =>
        (.error ("Failed to load network and run power flow: " ++ m),
         ⟨some n⟩)
    | .error (.other m) =>
        (.error ("Failed to load network and run power flow: " ++ m),
         ⟨some n⟩)

end PandaMCP

namespace Agent

/-- A model-issued tool call: optional correlation `id`, tool `name` and
an opaque argument payload (the `args` mapping). -/
structure ToolCall where
  id : Option String
  name : String
  args : String
deriving DecidableEq

/-- A model response: its text `content` and its list of requested
`tool_calls` (empty when the response is a plain answer). -/
structure ModelResponse where
  content : String
  tool_calls : List ToolCall
deriving DecidableEq

/-- A conversation message: the system prompt, a prior-turn message, the
assistant message carrying tool calls, or a `ToolMessage` built from one
tool result (`content` plus `tool_call_id`). -/
inductive Msg
  | system (content : String)
  | user (content : String)
  | assistant (content : String) (tool_calls : List ToolCall)
  | tool (tool_call_id : String) (content : String)
deriving DecidableEq

/-- A bound MCP tool: its `name` and its transport-side execution, which
either returns the stringified result `str(result)` or raises with an
exception text (`execute_tool_async` re-raises, and the per-call `try`
in `chat_node` catches it). -/
structure BoundTool where
  name : String
  run : String → Except String String

/-- The tag attached to a tool result:
`tool_call.get("id", "call_" + name)`. -/
def tagOf (tool_call : ToolCall) : String :=
  tool_call.id.getD ("call_" ++ tool_call.name)

/-- One entry of `tool_results`: the dict
`{"tool_call_id", "name", "content"}`. -/
structure ToolResultEntry where
  tool_call_id : String
  name : String
  content : String
deriving DecidableEq

/-- The matching loop `for tool in tools: if tool.name == name: break`,
taking the first bound tool whose name matches. -/
def find_matching_tool (tools : List BoundTool) (name : String) :
    Option BoundTool :=
  tools.find? (fun t => t.name == name)

/-- The per-call body of `execute_all_tools`: resolve the name against
the bound tools; a match is invoked through the transport (its result
string, or on an exception the `"Tool '<name>' failed: <e>"` text, is
recorded); an unmatched name records `"Tool '<name>' not found"`
without contacting the transport. The second component logs every
transport invocation actually performed, as `(name, args)` pairs. -/
def toolStep (tools : List BoundTool)
    (acc : List ToolResultEntry × List (String × String))
    (tool_call : ToolCall) :
    List ToolResultEntry × List (String × String) :=
  let nm := tool_call.name
  match find_matching_tool tools nm with
  | some t =>
    match t.run tool_call.args with
    | .ok result =>
        (acc.1 ++ [{ tool_call_id := tagOf tool_call, name := nm,
                     content := result }],
         acc.2 ++ [(nm, tool_call.args)])
    | .error e =>
        (acc.1 ++ [{ tool_call_id := tagOf tool_call, name := nm,
                     content := "Tool \x27" ++ nm ++ "\x27 failed: " ++ e }],
         acc.2 ++ [(nm, tool_call.args)])
  | none =>
      (acc.1 ++ [{ tool_call_id := tagOf tool_call, name := nm,
                   content := "Tool \x27" ++ nm ++ "\x27 not found" }],
       acc.2)

/-- The `execute_all_tools` coroutine of `chat_node`: iterate the
model's tool calls in request order, accumulating `tool_results`
(and the instrumentation log of transport invocations). -/
def execute_all_tools (tools : List BoundTool)
    (tool_calls : List ToolCall) :
    List ToolResultEntry × List (String × String) :=
  tool_calls.foldl (toolStep tools) ([], [])

/-- Everything observable about one `chat_node` turn: the message lists
submitted at each model invocation (in order), the `ToolMessage`s
appended to the conversation, the transport invocations performed, and
the content of the returned `AIMessage`. -/
structure ChatOutcome where
  modelCalls : List (List Msg)
  toolMessages : List Msg
  toolInvocations : List (String × String)
  output : String
deriving DecidableEq

/-- Embeds `chat_node`: prepend the system prompt, invoke the model
once; with no tool calls the response content is returned directly.
Otherwise execute every requested call, turn `tool_results` into
`ToolMessage`s in the same order, append the assistant tool-call
message and those tool messages to the conversation, invoke the model
exactly once more, and return that final response's content — without
inspecting the final response's own tool calls. -/
def chat_node (llm : List Msg → ModelResponse) (tools : List BoundTool)
    (enhanced_prompt : String) (history : List Msg) : ChatOutcome :=
  let messages := Msg.system enhanced_prompt :: history
  let response := llm messages
  if response.tool_calls.isEmpty then
    { modelCalls := [messages], toolMessages := [], toolInvocations := [],
      output := response.content }
  else
    let ex := execute_all_tools tools response.tool_calls
    let tool_messages := ex.1.map (fun r => Msg.tool r.tool_call_id r.content)
    let follow_up_messages :=
      messages ++ [Msg.assistant response.content response.tool_calls] ++
        tool_messages
    let final_response := llm follow_up_messages
    { modelCalls := [messages, follow_up_messages],
      toolMessages := tool_messages, toolInvocations := ex.2,
      output := final_response.content }

end Agent

namespace PandaMCP

/-- The ordered list of elements a sweep visits: for each requested
element type in order, each index of that table in order. -/
def contingencyTargets (net : Net) (elems : List ElementType) :
    List (ElementType × Nat) :=
  elems.flatMap (fun et => (net.table et).map (fun r => (et, r.idx)))

/-- The outcome the sweep records for one element. -/
def contingencyOutcomeFor (runpp : Net → Except PyErr Net) (net : Net)
    (t : ElementType × Nat) : COutcome :=
  match runpp (net.setOutOfService t.1 t.2) with
  | .ok solved =>
      { contingency := t.1.str ++ "_" ++ toString t.2,
        converged := solved.converged,
        violations := some (violationsOf solved), error := none }
  | .error e =>
      { contingency := t.1.str ++ "_" ++ toString t.2, converged := false,
        violations := none, error := some e.text }

theorem contingencyStep_eq (runpp : Net → Except PyErr Net) (net : Net)
    (et : ElementType) (acc : List COutcome) (r : Row) :
    contingencyStep runpp net et acc r =
      acc ++ [contingencyOutcomeFor runpp net (et, r.idx)] := by
  unfold contingencyStep contingencyOutcomeFor
  cases h : runpp (net.setOutOfService et r.idx) <;> simp [h]

theorem contingencyFold_eq (runpp : Net → Except PyErr Net) (net : Net)
    (et : ElementType) (rows : List Row) (acc : List COutcome) :
    rows.foldl (contingencyStep runpp net et) acc =
      acc ++ rows.map (fun r => contingencyOutcomeFor runpp net (et, r.idx)) := by
  induction rows generalizing acc with
  | nil => simp
  | cons r rows ih =>
      simp only [List.foldl_cons, List.map_cons]
      rw [contingencyStep_eq, ih, List.append_assoc]
      rfl

theorem contingencySweep_eq (runpp : Net → Except PyErr Net) (net : Net)
    (elems : List ElementType) :
    contingencySweep runpp net elems =
      (contingencyTargets net elems).map (contingencyOutcomeFor runpp net) := by
  unfold contingencySweep contingencyTargets
  have main : ∀ (es : List ElementType) (acc : List COutcome),
      es.foldl (fun acc element_type =>
        (net.table element_type).foldl
          (contingencyStep runpp net element_type) acc) acc =
      acc ++ (es.flatMap (fun et => (net.table et).map (fun r => (et, r.idx)))).map
        (contingencyOutcomeFor runpp net) := by
    intro es
    induction es with
    | nil => intro acc; simp
    | cons et es ih =>
        intro acc
        simp only [List.foldl_cons, List.flatMap_cons, List.map_append,
          List.map_map]
        rw [contingencyFold_eq, ih, List.append_assoc]
        rfl
  simpa using main elems []

end PandaMCP

namespace Agent

/-- The `tool_results` entry the loop records for one tool call. -/
def toolEntryFor (tools : List BoundTool) (tool_call : ToolCall) :
    ToolResultEntry :=
  let nm := tool_call.name
  match find_matching_tool tools nm with
  | some t =>
    match t.run tool_call.args with
    | .ok result =>
        { tool_call_id := tagOf tool_call, name := nm, content := result }
    | .error e =>
        { tool_call_id := tagOf tool_call, name := nm,
          content := "Tool \x27" ++ nm ++ "\x27 failed: " ++ e }
  | none =>
      { tool_call_id := tagOf tool_call, name := nm,
        content := "Tool \x27" ++ nm ++ "\x27 not found" }

/-- The transport invocations a list of tool calls gives rise to: one
`(name, args)` pair per call whose name matches a bound tool, in
request order. -/
def dispatchLog (tools : List BoundTool) (tool_calls : List ToolCall) :
    List (String × String) :=
  (tool_calls.filter
      (fun tc => (find_matching_tool tools tc.name).isSome)).map
    (fun tc => (tc.name, tc.args))

theorem toolStep_eq (tools : List BoundTool)
    (acc : List ToolResultEntry × List (String × String))
    (tc : ToolCall) :
    toolStep tools acc tc =
      (acc.1 ++ [toolEntryFor tools tc],
       acc.2 ++ (if (find_matching_tool tools tc.name).isSome then
          [(tc.name, tc.args)] else [])) := by
  unfold toolStep toolEntryFor
  cases h : find_matching_tool tools tc.name with
  | none => simp [h]
  | some t =>
      cases h2 : t.run tc.args <;> simp [h, h2]

theorem execute_all_tools_eq (tools : List BoundTool)
    (tool_calls : List ToolCall) :
    execute_all_tools tools tool_calls =
      (tool_calls.map (toolEntryFor tools), dispatchLog tools tool_calls) := by
  unfold execute_all_tools dispatchLog
  have main : ∀ (tcs : List ToolCall)
      (acc : List ToolResultEntry × List (String × String)),
      tcs.foldl (toolStep tools) acc =
        (acc.1 ++ tcs.map (toolEntryFor tools),
         acc.2 ++ ((tcs.filter
            (fun tc => (find_matching_tool tools tc.name).isSome)).map
          (fun tc => (tc.name, tc.args)))) := by
    intro tcs
    induction tcs with
    | nil => intro acc; simp
    | cons tc tcs ih =>
        intro acc
        simp only [List.foldl_cons]
        rw [toolStep_eq, ih]
        simp only [List.filter_cons]
        by_cases h : (find_matching_tool tools tc.name).isSome
        · simp [h, List.append_assoc]
        · simp [h, List.append_assoc]
  simpa using main tool_calls ([], [])

/-- The `tool_call_id` recorded for a call is always its tag. -/
theorem toolEntryFor_tool_call_id (tools : List BoundTool)
    (tc : ToolCall) : (toolEntryFor tools tc).tool_call_id = tagOf tc := by
  unfold toolEntryFor
  cases h : find_matching_tool tools tc.name with
  | none => simp [h]
  | some t => cases h2 : t.run tc.args <;> simp [h, h2]

end Agent

namespace PandaMCP

/-- The declared defaults of the `run_power_flow` tool:
`algorithm='nr'`, `calculate_voltage_angles=True`, `max_iteration=10`,
`tolerance_mva=1e-8`. -/
def defaultPFParams : PFParams :=
  { algorithm := "nr", calculate_voltage_angles := true,
    max_iteration := 10, tolerance_mva := 1 / 100000000 }

/-- A small concrete network used to instantiate the theorems. -/
def sampleNet : Net :=
  { bus := [0, 1], line := [{ idx := 0, in_service := true }],
    trafo := [], gen := [0], load := [1], switch := [],
    res_bus := [], res_line := [], res_trafo := [], converged := false }

/-- The sample network after a non-convergent solve: result tables
filled in, `converged = False`. -/
def sampleSolved : Net :=
  { sampleNet with
    res_bus := [{ idx := 0, vm_pu := 1 }, { idx := 1, vm_pu := 9 / 10 }],
    res_line := [{ idx := 0, loading_percent := 120 }],
    converged := false }

/-- A deserialization oracle whose `.json` reader raises a generic
exception and whose `.p` reader raises `FileNotFoundError`. -/
def failFS : FS :=
  { from_json := fun _ => Except.error (PyErr.other "boom"),
    from_pickle := fun _ => Except.error (PyErr.fileNotFound "nope") }

/-- A deserialization oracle that returns `sampleNet` for any path. -/
def okFS : FS :=
  { from_json := fun _ => Except.ok sampleNet,
    from_pickle := fun _ => Except.ok sampleNet }

/-- C1: for every loaded network, a solve that returns without raising
but does not converge yields a success-status `run_power_flow` result
carrying `converged=false` (with the "did not converge" message), while
an error-status result arises exactly when the solver itself raised. -/
theorem run_power_flow_nonconvergence_is_success
    (runpp : Net → PFParams → Except PyErr Net) (st : Session) (n : Net)
    (params : PFParams) (hnet : st._current_net = some n) :
    (∀ solved, runpp n params = Except.ok solved →
      solved.converged = false →
      (run_power_flow runpp st params).1 =
        PFResult.success "Power flow did not converge" (pfResultsOf solved) ∧
      (pfResultsOf solved).converged = false ∧
      (run_power_flow runpp st params).1.status = "success") ∧
    (∀ e, runpp n params = Except.error e →
      (run_power_flow runpp st params).1.status = "error") ∧
    (∀ msg, (run_power_flow runpp st params).1 = PFResult.error msg →
      ∃ e, runpp n params = Except.error e) := by
  refine ⟨?_, ?_, ?_⟩
  · intro solved hok hconv
    refine ⟨?_, ?_, ?_⟩ <;>
      simp [run_power_flow, hnet, hok, hconv, pfResultsOf, PFResult.status]
  · intro e herr
    cases e <;> simp [run_power_flow, hnet, herr, PFResult.status]
  · intro msg hmsg
    cases hcall : runpp n params with
    | ok solved => simp [run_power_flow, hnet, hcall] at hmsg
    | error e => exact ⟨e, rfl⟩

/-- Witness for C1 at a concrete non-convergent solve. -/
theorem run_power_flow_nonconvergence_witness :
    (run_power_flow (fun _ _ => Except.ok sampleSolved) ⟨some sampleNet⟩
        defaultPFParams).1 =
      PFResult.success "Power flow did not converge" (pfResultsOf sampleSolved) ∧
    (pfResultsOf sampleSolved).converged = false := by
  have h := run_power_flow_nonconvergence_is_success
    (fun _ _ => Except.ok sampleSolved) ⟨some sampleNet⟩ sampleNet
    defaultPFParams rfl
  have h2 := h.1 sampleSolved rfl (by rfl)
  exact ⟨h2.1, h2.2.1⟩

/-- C2: for every file path ending in neither `.json` nor `.p`,
`load_network` returns the unsupported-format error and leaves the
session untouched, for every deserialization oracle — so the file is
never read. -/
theorem load_network_unsupported_extension_rejected (fs : FS)
    (st : Session) (file_path : String)
    (h1 : pyEndsWith file_path ".json" = false)
    (h2 : pyEndsWith file_path ".p" = false) :
    load_network fs st file_path =
      (LoadResult.error "Unsupported file format. Use .json or .p files.",
       st) := by
  simp [load_network, loadStep, h1, h2]

/-- Witness for C2 at a `.csv` path. -/
theorem load_network_unsupported_extension_witness :
    load_network failFS ⟨some sampleNet⟩ "network.csv" =
      (LoadResult.error "Unsupported file format. Use .json or .p files.",
       ⟨some sampleNet⟩) :=
  load_network_unsupported_extension_rejected failFS ⟨some sampleNet⟩
    "network.csv" (by decide) (by decide)

/-- C8: whenever no network is loaded, `run_power_flow`,
`run_contingency_analysis` and `get_network_info` all return the
error-status result carrying the no-network-loaded message, and the
session still has no network. -/
theorem no_network_loaded_all_error
    (runpp : Net → PFParams → Except PyErr Net)
    (runppD : Net → Except PyErr Net) (st : Session) (params : PFParams)
    (ct : String) (elems : Option (List ElementType))
    (h : st._current_net = none) :
    run_power_flow runpp st params = (PFResult.error noNetworkMsg, st) ∧
    run_contingency_analysis runppD st ct elems =
      (CAResult.error noNetworkMsg, st) ∧
    get_network_info st = (InfoResult.error noNetworkMsg, st) := by
  refine ⟨?_, ?_, ?_⟩ <;>
    simp [run_power_flow, run_contingency_analysis, get_network_info, h]

/-- Witness for C8 at the empty session. -/
theorem no_network_loaded_witness :
    run_power_flow (fun n _ => Except.ok n) ⟨none⟩ defaultPFParams =
      (PFResult.error noNetworkMsg, ⟨none⟩) ∧
    run_contingency_analysis (fun n => Except.ok n) ⟨none⟩ "N-1" none =
      (CAResult.error noNetworkMsg, ⟨none⟩) ∧
    get_network_info ⟨none⟩ = (InfoResult.error noNetworkMsg, ⟨none⟩) :=
  no_network_loaded_all_error (fun n _ => Except.ok n) (fun n => Except.ok n)
    ⟨none⟩ defaultPFParams "N-1" none rfl

/-- C9: every error-status `load_network` result — unsupported
extension, missing file, or any deserialization failure — leaves the
session exactly as it was. -/
theorem load_network_failure_preserves_session (fs : FS) (st : Session)
    (file_path : String)
    (h : (load_network fs st file_path).1.status = "error") :
    (load_network fs st file_path).2 = st := by
  cases hl : loadStep fs file_path with
  | ok n => simp [load_network, hl, LoadResult.status] at h
  | error e => cases e <;> simp [load_network, hl]

/-- Witness for C9 at a `.json` path whose deserialization raises. -/
theorem load_network_failure_preserves_witness :
    (load_network failFS ⟨some sampleNet⟩ "grid.json").1.status = "error" ∧
    (load_network failFS ⟨some sampleNet⟩ "grid.json").2 =
      ⟨some sampleNet⟩ :=
  ⟨by decide,
   load_network_failure_preserves_session failFS ⟨some sampleNet⟩
     "grid.json" (by decide)⟩

/-- C3: for every loaded network and requested element-type set, the
contingency sweep returns a success-status result with exactly one
outcome per element (N outcomes for N elements, in sweep order), each
tagged `"<type>_<idx>"`; an element whose re-solve raises gets an
outcome recording the exception text (with `converged=False` and no
violations entry), and every other element still gets its well-formed
outcome with its violations. -/
theorem run_contingency_analysis_outcomes
    (runpp : Net → Except PyErr Net) (st : Session) (n : Net)
    (ct : String) (elements : Option (List ElementType))
    (hnet : st._current_net = some n) :
    ∃ rs, (run_contingency_analysis runpp st ct elements).1 =
        CAResult.success "Contingency analysis completed" rs ∧
      rs.length =
        ((elements.getD [ElementType.line, ElementType.trafo]).map
          (fun et => (n.table et).length)).sum ∧
      ∀ (i : Nat) (t : ElementType × Nat),
        (contingencyTargets n
          (elements.getD [ElementType.line, ElementType.trafo]))[i]? =
            some t →
        (∀ solved, runpp (n.setOutOfService t.1 t.2) = Except.ok solved →
          rs[i]? = some
            { contingency := t.1.str ++ "_" ++ toString t.2,
              converged := solved.converged,
              violations := some (violationsOf solved), error := none }) ∧
        (∀ e, runpp (n.setOutOfService t.1 t.2) = Except.error e →
          rs[i]? = some
            { contingency := t.1.str ++ "_" ++ toString t.2,
              converged := false, violations := none,
              error := some e.text }) := by
  refine ⟨contingencySweep runpp n
    (elements.getD [ElementType.line, ElementType.trafo]), ?_, ?_, ?_⟩
  · simp [run_contingency_analysis, hnet]
  · rw [contingencySweep_eq]
    simp only [contingencyTargets, List.length_map, List.length_flatMap]
    congr 1
    apply List.map_congr_left
    intro et _
    simp [Function.comp]
  · intro i t ht
    have hrs : (contingencySweep runpp n
        (elements.getD [ElementType.line, ElementType.trafo]))[i]? =
        some (contingencyOutcomeFor runpp n t) := by
      rw [contingencySweep_eq, List.getElem?_map, ht]
      rfl
    constructor
    · intro solved hok
      rw [hrs]
      simp [contingencyOutcomeFor, hok]
    · intro e herr
      rw [hrs]
      simp [contingencyOutcomeFor, herr]

/-- A solver oracle for the witness: it raises exactly when line 1 has
been taken out of service, and otherwise converges. -/
def sampleSweepSolver (m : Net) : Except PyErr Net :=
  if m.line = [{ idx := 0, in_service := true },
               { idx := 1, in_service := false }] then
    Except.error (PyErr.other "diverged")
  else Except.ok { m with converged := true }

/-- A two-line, one-trafo network for the sweep witness. -/
def sampleSweepNet : Net :=
  { bus := [0, 1, 2],
    line := [{ idx := 0, in_service := true },
             { idx := 1, in_service := true }],
    trafo := [{ idx := 7, in_service := true }],
    gen := [0], load := [1], switch := [],
    res_bus := [], res_line := [], res_trafo := [], converged := false }

/-- Witness for C3: three elements give three outcomes; the second
line's re-solve raises and its outcome records the error string while
the other two outcomes are well-formed. -/
theorem run_contingency_analysis_outcomes_witness :
    ∃ rs, (run_contingency_analysis sampleSweepSolver
        ⟨some sampleSweepNet⟩ "N-1" none).1 =
        CAResult.success "Contingency analysis completed" rs ∧
      rs.length = 3 ∧
      rs[0]?.map (fun o => o.contingency) = some "line_0" ∧
      rs[1]? = some
        { contingency := "line_1", converged := false,
          violations := none, error := some "diverged" } ∧
      rs[2]?.map (fun o => o.contingency) = some "trafo_7" := by
  obtain ⟨rs, hres, hlen, hidx⟩ := run_contingency_analysis_outcomes
    sampleSweepSolver ⟨some sampleSweepNet⟩ sampleSweepNet "N-1" none rfl
  refine ⟨rs, hres, by simpa using hlen, ?_, ?_, ?_⟩
  · have h := (hidx 0 (ElementType.line, 0) (by rfl)).1
      { sampleSweepNet.setOutOfService ElementType.line 0 with
        converged := true } (by rfl)
    rw [h]
    rfl
  · exact (hidx 1 (ElementType.line, 1) (by rfl)).2 (PyErr.other "diverged")
      (by rfl)
  · have h := (hidx 2 (ElementType.trafo, 7) (by rfl)).1
      { sampleSweepNet.setOutOfService ElementType.trafo 7 with
        converged := true } (by rfl)
    rw [h]
    rfl

/-- C4: `load_and_run_power_flow` agrees with `load_network` followed by
`run_power_flow` on the session the load produced: on a successful load
and solve it reports exactly the `network_info` counts the load reports
and exactly the `converged` flag the separate power flow reports; and
when the load step fails it returns an error-status result, leaves the
session unchanged, and never consults the solver (the result is the
same for every solver oracle), just as `load_network` errors. -/
theorem load_and_run_power_flow_roundtrip (fs : FS)
    (runpp : Net → PFParams → Except PyErr Net) (st : Session)
    (file_path : String) (params : PFParams) :
    (∀ n solved, loadStep fs file_path = Except.ok n →
      runpp n params = Except.ok solved →
      (load_and_run_power_flow fs runpp st file_path params).1 =
        LRResult.success
          (if solved.converged then
            "Network loaded from " ++ file_path ++
              " and power flow completed successfully"
          else
            "Network loaded from " ++ file_path ++
              " but power flow did not converge")
          (networkInfoOf n) (pfResultsOf solved) ∧
      load_network fs st file_path =
        (LoadResult.success
          ("Network loaded successfully from " ++ file_path)
          (networkInfoOf n), ⟨some n⟩) ∧
      (run_power_flow runpp ⟨some n⟩ params).1 =
        PFResult.success
          (if solved.converged then
            "Power flow calculation completed successfully"
          else "Power flow did not converge")
          (pfResultsOf solved)) ∧
    (∀ e, loadStep fs file_path = Except.error e →
      (load_and_run_power_flow fs runpp st file_path params).1.status =
        "error" ∧
      (load_and_run_power_flow fs runpp st file_path params).2 = st ∧
      (load_network fs st file_path).1.status = "error" ∧
      ∀ runpp2, load_and_run_power_flow fs runpp2 st file_path params =
        load_and_run_power_flow fs runpp st file_path params) := by
  constructor
  · intro n solved hload hsolve
    refine ⟨?_, ?_, ?_⟩
    · simp [load_and_run_power_flow, hload, hsolve]
    · simp [load_network, hload]
    · simp [run_power_flow, hsolve]
  · intro e herr
    refine ⟨?_, ?_, ?_, ?_⟩
    · cases e <;> simp [load_and_run_power_flow, herr, LRResult.status]
    · cases e <;> simp [load_and_run_power_flow, herr]
    · cases e <;> simp [load_network, herr, LoadResult.status]
    · intro runpp2
      cases e <;> simp [load_and_run_power_flow, herr]

/-- A solver oracle for the C4 witness: converges on anything. -/
def sampleOkSolver (m : Net) (_ : PFParams) : Except PyErr Net :=
  Except.ok { m with converged := true }

/-- Witness for C4: a successful `.json` load followed by a convergent
solve agrees with the sequential pair, and an unreadable `.json` load
short-circuits with an error for this and every other solver. -/
theorem load_and_run_power_flow_roundtrip_witness :
    ((load_and_run_power_flow okFS sampleOkSolver ⟨none⟩ "grid.json"
        defaultPFParams).1 =
      LRResult.success
        "Network loaded from grid.json and power flow completed successfully"
        (networkInfoOf sampleNet)
        (pfResultsOf { sampleNet with converged := true }) ∧
     load_network okFS ⟨none⟩ "grid.json" =
       (LoadResult.success "Network loaded successfully from grid.json"
         (networkInfoOf sampleNet), ⟨some sampleNet⟩) ∧
     (run_power_flow sampleOkSolver ⟨some sampleNet⟩ defaultPFParams).1 =
       PFResult.success "Power flow calculation completed successfully"
         (pfResultsOf { sampleNet with converged := true })) ∧
    ((load_and_run_power_flow failFS sampleOkSolver ⟨none⟩ "grid.json"
        defaultPFParams).1.status = "error" ∧
     (load_and_run_power_flow failFS sampleOkSolver ⟨none⟩ "grid.json"
        defaultPFParams).2 = ⟨none⟩ ∧
     (load_network failFS ⟨none⟩ "grid.json").1.status = "error" ∧
     ∀ runpp2, load_and_run_power_flow failFS runpp2 ⟨none⟩ "grid.json"
        defaultPFParams =
       load_and_run_power_flow failFS sampleOkSolver ⟨none⟩ "grid.json"
        defaultPFParams) := by
  constructor
  · have h := (load_and_run_power_flow_roundtrip okFS sampleOkSolver
      ⟨none⟩ "grid.json" defaultPFParams).1 sampleNet
      { sampleNet with converged := true } (by rfl) (by rfl)
    exact ⟨h.1, h.2.1, h.2.2⟩
  · exact (load_and_run_power_flow_roundtrip failFS sampleOkSolver
      ⟨none⟩ "grid.json" defaultPFParams).2 (PyErr.other "boom") (by rfl)

/-- C10: `run_contingency_analysis` never mutates the session: every
modification and re-solve happens on a copy, so the returned session is
exactly the input session, for every solver oracle and input. -/
theorem run_contingency_analysis_preserves_session
    (runpp : Net → Except PyErr Net) (st : Session) (ct : String)
    (elems : Option (List ElementType)) :
    (run_contingency_analysis runpp st ct elems).2 = st := by
  cases h : st._current_net <;> simp [run_contingency_analysis, h]

end PandaMCP

namespace Agent

/-- A closed form of `chat_node` on a turn whose first response carries
tool calls: both model invocations, the tool messages built from the
per-call entries, and the dispatch log of the first response's matched
calls. -/
theorem chat_node_eq_of_tool_calls (llm : List Msg → ModelResponse)
    (tools : List BoundTool) (enhanced_prompt : String)
    (history : List Msg)
    (hne : (llm (Msg.system enhanced_prompt :: history)).tool_calls ≠ []) :
    chat_node llm tools enhanced_prompt history =
      { modelCalls := [Msg.system enhanced_prompt :: history,
          (Msg.system enhanced_prompt :: history) ++
            [Msg.assistant
              (llm (Msg.system enhanced_prompt :: history)).content
              (llm (Msg.system enhanced_prompt :: history)).tool_calls] ++
            (llm (Msg.system enhanced_prompt :: history)).tool_calls.map
              (fun tc => Msg.tool (tagOf tc)
                ((toolEntryFor tools tc).content))],
        toolMessages :=
          (llm (Msg.system enhanced_prompt :: history)).tool_calls.map
            (fun tc => Msg.tool (tagOf tc)
              ((toolEntryFor tools tc).content)),
        toolInvocations := dispatchLog tools
          (llm (Msg.system enhanced_prompt :: history)).tool_calls,
        output := (llm ((Msg.system enhanced_prompt :: history) ++
          [Msg.assistant
            (llm (Msg.system enhanced_prompt :: history)).content
            (llm (Msg.system enhanced_prompt :: history)).tool_calls] ++
          (llm (Msg.system enhanced_prompt :: history)).tool_calls.map
            (fun tc => Msg.tool (tagOf tc)
              ((toolEntryFor tools tc).content)))).content } := by
  have hie : (llm (Msg.system enhanced_prompt :: history)).tool_calls.isEmpty
      = false := by
    cases hc : (llm (Msg.system enhanced_prompt :: history)).tool_calls with
    | nil => exact absurd hc hne
    | cons a l => rfl
  simp only [chat_node, hie, Bool.false_eq_true, if_false,
    execute_all_tools_eq, List.map_map]
  have hmap : (fun (r : ToolResultEntry) =>
        Msg.tool r.tool_call_id r.content) ∘ toolEntryFor tools =
      fun tc => Msg.tool (tagOf tc) ((toolEntryFor tools tc).content) := by
    funext tc
    simp [Function.comp, toolEntryFor_tool_call_id]
  rw [hmap]

/-- C5: on a turn whose first model response contains zero tool calls,
`chat_node` performs exactly one model invocation and emits that
response's content verbatim, touching no tool. -/
theorem chat_node_no_tool_calls_single_invocation
    (llm : List Msg → ModelResponse) (tools : List BoundTool)
    (enhanced_prompt : String) (history : List Msg)
    (h : (llm (Msg.system enhanced_prompt :: history)).tool_calls = []) :
    chat_node llm tools enhanced_prompt history =
      { modelCalls := [Msg.system enhanced_prompt :: history],
        toolMessages := [], toolInvocations := [],
        output := (llm (Msg.system enhanced_prompt :: history)).content } := by
  simp [chat_node, h]

/-- A model oracle for the witnesses: on the two-message first pass it
answers plainly with no tool calls. -/
def samplePlainLLM : List Msg → ModelResponse :=
  fun ms => if ms.length = 2 then
    { content := "hello", tool_calls := [] }
  else { content := "unreached", tool_calls := [] }

/-- Witness for C5 at a concrete plain-answer response. -/
theorem chat_node_no_tool_calls_witness :
    chat_node samplePlainLLM [] "sys" [Msg.user "q"] =
      { modelCalls := [[Msg.system "sys", Msg.user "q"]],
        toolMessages := [], toolInvocations := [], output := "hello" } :=
  chat_node_no_tool_calls_single_invocation samplePlainLLM [] "sys"
    [Msg.user "q"] rfl

/-- C6: on a turn whose first model response contains k ≥ 1 tool calls,
`chat_node` appends exactly k tool-result messages in request order,
each tagged with its originating call id; a call whose name matches no
bound tool gets the "tool not found" text and is never sent to the
transport (the invocation log lists exactly the matched calls); and
exactly one more model invocation follows, regardless of the individual
tool outcomes. -/
theorem chat_node_tool_round_results (llm : List Msg → ModelResponse)
    (tools : List BoundTool) (enhanced_prompt : String)
    (history : List Msg) (tcs : List ToolCall)
    (h : (llm (Msg.system enhanced_prompt :: history)).tool_calls = tcs)
    (hne : tcs ≠ []) :
    (chat_node llm tools enhanced_prompt history).toolMessages.length =
      tcs.length ∧
    (∀ (i : Nat) (tc : ToolCall), tcs[i]? = some tc →
      (chat_node llm tools enhanced_prompt history).toolMessages[i]? =
        some (Msg.tool (tagOf tc) ((toolEntryFor tools tc).content))) ∧
    (∀ (i : Nat) (tc : ToolCall), tcs[i]? = some tc →
      find_matching_tool tools tc.name = none →
      (chat_node llm tools enhanced_prompt history).toolMessages[i]? =
        some (Msg.tool (tagOf tc)
          ("Tool \x27" ++ tc.name ++ "\x27 not found"))) ∧
    (chat_node llm tools enhanced_prompt history).toolInvocations =
      dispatchLog tools tcs ∧
    (chat_node llm tools enhanced_prompt history).modelCalls.length = 2 := by
  have hne2 : (llm (Msg.system enhanced_prompt :: history)).tool_calls ≠ []
    := by rw [h]; exact hne
  rw [chat_node_eq_of_tool_calls llm tools enhanced_prompt history hne2]
  simp only [h]
  refine ⟨by simp, ?_, ?_, by trivial, by trivial⟩
  · intro i tc hi
    simp [List.getElem?_map, hi]
  · intro i tc hi hnone
    simp [List.getElem?_map, hi, toolEntryFor, hnone]

/-- A bound tool for the witnesses, invoked through the transport. -/
def sampleTool : BoundTool :=
  { name := "run_power_flow", run := fun _ => Except.ok "converged" }

/-- A matched tool call with an explicit correlation id. -/
def sampleCallA : ToolCall :=
  { id := some "id1", name := "run_power_flow", args := "a1" }

/-- A tool call whose name matches no bound tool, without an id. -/
def sampleCallB : ToolCall :=
  { id := none, name := "bogus", args := "a2" }

/-- A model oracle whose first response requests one matched and one
unmatched tool call, then answers plainly. -/
def sampleToolCallLLM : List Msg → ModelResponse :=
  fun ms => if ms.length = 2 then
    { content := "calling tools", tool_calls := [sampleCallA, sampleCallB] }
  else { content := "final answer", tool_calls := [] }

/-- Witness for C6: two tool calls give two tool messages, the
unmatched one with the not-found text and its default tag, only the
matched one reaching the transport, and two model invocations. -/
theorem chat_node_tool_round_witness :
    (chat_node sampleToolCallLLM [sampleTool] "sys"
        [Msg.user "q"]).toolMessages.length = 2 ∧
    (chat_node sampleToolCallLLM [sampleTool] "sys"
        [Msg.user "q"]).toolMessages[0]? =
      some (Msg.tool "id1" "converged") ∧
    (chat_node sampleToolCallLLM [sampleTool] "sys"
        [Msg.user "q"]).toolMessages[1]? =
      some (Msg.tool "call_bogus" "Tool \x27bogus\x27 not found") ∧
    (chat_node sampleToolCallLLM [sampleTool] "sys"
        [Msg.user "q"]).toolInvocations = [("run_power_flow", "a1")] ∧
    (chat_node sampleToolCallLLM [sampleTool] "sys"
        [Msg.user "q"]).modelCalls.length = 2 := by
  have h := chat_node_tool_round_results sampleToolCallLLM [sampleTool]
    "sys" [Msg.user "q"] [sampleCallA, sampleCallB] rfl (by simp)
  refine ⟨h.1, ?_, ?_, ?_, h.2.2.2.2⟩
  · exact h.2.1 0 sampleCallA rfl
  · exact h.2.2.1 1 sampleCallB rfl rfl
  · rw [h.2.2.2.1]
    rfl

/-- C7: on a turn whose first model response requests tool calls,
`chat_node` performs exactly two model invocations, emits the second
invocation's response content verbatim as the terminal assistant
message, and its transport invocations are exactly those determined by
the first response's tool calls — so no tool is ever dispatched because
of tool calls requested in the second response. -/
theorem chat_node_single_round_terminal (llm : List Msg → ModelResponse)
    (tools : List BoundTool) (enhanced_prompt : String)
    (history : List Msg) (tc0 : ToolCall) (tcs : List ToolCall)
    (h : (llm (Msg.system enhanced_prompt :: history)).tool_calls =
      tc0 :: tcs) :
    (chat_node llm tools enhanced_prompt history).modelCalls =
      [Msg.system enhanced_prompt :: history,
       (Msg.system enhanced_prompt :: history) ++
         [Msg.assistant
           (llm (Msg.system enhanced_prompt :: history)).content
           (tc0 :: tcs)] ++
         (tc0 :: tcs).map (fun tc => Msg.tool (tagOf tc)
           ((toolEntryFor tools tc).content))] ∧
    (chat_node llm tools enhanced_prompt history).output =
      (llm ((Msg.system enhanced_prompt :: history) ++
        [Msg.assistant
          (llm (Msg.system enhanced_prompt :: history)).content
          (tc0 :: tcs)] ++
        (tc0 :: tcs).map (fun tc => Msg.tool (tagOf tc)
          ((toolEntryFor tools tc).content)))).content ∧
    (chat_node llm tools enhanced_prompt history).toolInvocations =
      dispatchLog tools (tc0 :: tcs) := by
  have hne2 : (llm (Msg.system enhanced_prompt :: history)).tool_calls ≠ []
    := by rw [h]; exact List.cons_ne_nil tc0 tcs
  rw [chat_node_eq_of_tool_calls llm tools enhanced_prompt history hne2]
  simp only [h]
  exact ⟨by trivial, by trivial, by trivial⟩

/-- A model oracle whose second response requests a further tool call;
the loop must still terminate with that response's content. -/
def sampleChainLLM : List Msg → ModelResponse :=
  fun ms => if ms.length = 2 then
    { content := "calling", tool_calls := [sampleCallA] }
  else { content := "second answer", tool_calls := [sampleCallB] }

/-- Witness for C7: even though the second response requests a tool
call, its content is emitted verbatim, only the first-round call was
dispatched, and exactly two model invocations happened. -/
theorem chat_node_single_round_witness :
    (chat_node sampleChainLLM [sampleTool] "sys" [Msg.user "q"]).output =
      "second answer" ∧
    (chat_node sampleChainLLM [sampleTool] "sys"
        [Msg.user "q"]).toolInvocations = [("run_power_flow", "a1")] ∧
    (chat_node sampleChainLLM [sampleTool] "sys"
        [Msg.user "q"]).modelCalls.length = 2 := by
  have h := chat_node_single_round_terminal sampleChainLLM [sampleTool]
    "sys" [Msg.user "q"] sampleCallA [] rfl
  refine ⟨?_, ?_, ?_⟩
  · rw [h.2.1]
    rfl
  · rw [h.2.2]
    rfl
  · rw [h.1]
    rfl

end Agent
